import Mathlib

/-!
Verification of the validation-node core against its specification.

This file shallowly embeds the Python modules of the repository
(`app/common.py`, `app/events/consensus.py`, `app/events/events.py`,
`app/events/filters.py`, `app/ethereum/rewards.py`, `app/websocket.py`)
as executable Lean definitions and proves or refutes the specified
properties about votes, consensus, rewards, state transitions and the
validation protocol.

Modelling conventions:
- Python ints are `Nat` (all quantities involved are non-negative);
  Python float division in guard expressions is modelled exactly over `ℚ`.
- Python dicts are association lists preserving insertion order
  (the guaranteed iteration order of Python 3.7+ dicts).
- A fallible Python expression (raising an exception) is modelled with
  `Option`: `none` is the exception path.
- The `database` package of the repository is not among the provided
  sources; its operations (`group_votes_by_representation`, vote identity
  and overwrite semantics, participant lookup) are modelled from the spec
  and are marked `Modelled from the spec:` in their doc comments.
-/

namespace ValidationNode

/-- A user's answer: a `(sort_key, value)` pair of strings
(`database.Vote.ANSWERS_SORT_KEY` / `ANSWERS_VALUE_KEY`). -/
abbrev Answer := String × String

/-- A vote as stored by the node: `(event_id, user_id, node_id, timestamp,
answers)` (spec §3 `Vote`). -/
structure Vote where
  event_id : String := ""
  user_id : String := ""
  node_id : String := ""
  timestamp : Nat := 0
  answers : List Answer := []
  deriving Repr, DecidableEq

/-- The event descriptor persisted by `database_events.Event`
(`events.py`, `call_event_contract_for_metadata`), together with the
dynamic fields `state`, `is_master_node`, `rewards_validation_round`
and the consensus-rule fields read by `consensus.py`.
`min_participant_ratio` is kept as an event field with default 0
(spec §9: its origin is ambiguous in the source). -/
structure Event where
  event_id : String := ""
  owner : String := ""
  token_address : String := ""
  node_addresses : List String := []
  leftovers_recoverable_after : Nat := 0
  application_start_time : Nat := 0
  application_end_time : Nat := 0
  event_start_time : Nat := 0
  event_end_time : Nat := 0
  event_name : String := ""
  data_feed_hash : String := ""
  state : Nat := 0
  is_master_node : Bool := false
  min_total_votes : Nat := 0
  min_consensus_votes : Nat := 0
  min_consensus_ratio : Nat := 0
  max_users : Nat := 0
  min_participant_ratio : Nat := 0
  rewards_validation_round : Nat := 1
  deriving Repr, DecidableEq

/-! ### Canonical representation of answers

Modelled from the spec: the `database` package (not among the provided
sources) derives a *representation*, "a canonical string derived from
`answers` sorted by `sort_key` then value", used as the consensus
grouping key (spec §3, §4.G step 1). -/

/-- Ordering of answers: by `sort_key`, then by value. -/
def answerLe (a b : Answer) : Bool :=
  a.1 < b.1 || (a.1 == b.1 && (a.2 < b.2 || a.2 == b.2))

/-- Insert into a sorted answer list (insertion-sort step). -/
def insertAnswer (a : Answer) : List Answer → List Answer
  | [] => [a]
  | b :: rest => if answerLe a b then a :: b :: rest else b :: insertAnswer a rest

/-- Sort answers by `(sort_key, value)`. -/
def sortAnswers : List Answer → List Answer
  | [] => []
  | a :: rest => insertAnswer a (sortAnswers rest)

/-- Modelled from the spec: serialize the sorted answers into the
canonical representation string (spec §3: "a canonical string derived
from `answers` sorted by `sort_key` then value"). -/
def representation_of (answers : List Answer) : String :=
  (sortAnswers answers).foldl (fun s a => s ++ a.1 ++ ":" ++ a.2 ++ ";") ""

/-! ### Association-list store helpers

Modelled from the spec: the Store (spec §4.B) is the `database` package,
not among the provided sources. Python dicts preserve insertion order,
so maps are association lists; `put` overwrites in place by key. -/

/-- Look up a key in an association list (first match). -/
def alistGet {α : Type} (l : List (String × α)) (k : String) : Option α :=
  match l with
  | [] => none
  | (k', v) :: rest => if k' == k then some v else alistGet rest k

/-- Overwrite the value at a key, or append a new binding
(Python `d[k] = v` on an insertion-ordered dict). -/
def alistPut {α : Type} (l : List (String × α)) (k : String) (v : α) :
    List (String × α) :=
  match l with
  | [] => [(k, v)]
  | (k', v') :: rest =>
      if k' == k then (k, v) :: rest else (k', v') :: alistPut rest k v

/-- Votes of one event keyed by user, in dict insertion order
(`votes_by_users` in `consensus.py`: each user maps to their list of
votes). -/
abbrev VotesByUsers := List (String × List Vote)

/-- Vote groups keyed by representation string, in dict insertion order
(`votes_by_repr` in `consensus.py`). -/
abbrev VotesByRepr := List (String × List Vote)

/-- Append a vote to its representation bucket, creating the bucket at
the end on first occurrence (Python `defaultdict(list)` grouping). -/
def insertGrouped (k : String) (v : Vote) : VotesByRepr → VotesByRepr
  | [] => [(k, [v])]
  | (k', vs) :: rest =>
      if k' == k then (k', vs ++ [v]) :: rest
      else (k', vs) :: insertGrouped k v rest

/-- Modelled from the spec: `database.Vote.group_votes_by_representation`
(spec §4.B: `group_votes_by_representation(event_id) → map[rep → [vote]]`;
§4.G step 1: "Group all votes by their canonical representation string").
Buckets appear in first-occurrence order of the representation, votes
itemized in user order. -/
def group_votes_by_representation (votes_by_users : VotesByUsers) : VotesByRepr :=
  ((votes_by_users.map Prod.snd).flatten).foldl
    (fun acc v => insertGrouped (representation_of v.answers) v acc) []

/-- Python `max(iterable, key=len-of-bucket)`: scans left to right and
returns the first element attaining the maximal key; `none` models the
`ValueError` raised on an empty iterable. -/
def argmaxFirst : VotesByRepr → Option (String × List Vote)
  | [] => none
  | x :: xs =>
      match argmaxFirst xs with
      | none => some x
      | some y => if y.2.length > x.2.length then some y else some x

/-! ### `app/events/consensus.py` -/

/-- `consensus.should_calculate_consensus(event, vote_count)`.
The participant ratio `(vote_count / len(event.participants())) * 100`
is computed before any guard, so an event with zero participants raises
`ZeroDivisionError` (modelled as `none`) even when
`vote_count < min_total_votes`. `event.participants()` is a Store
lookup; the participant list is passed explicitly. Division is exact
over `ℚ`. -/
def should_calculate_consensus (event : Event) (participants : List String)
    (vote_count : Nat) : Option Bool :=
  if participants.length = 0 then none
  else
    let participant_ratio : ℚ :=
      ((vote_count : ℚ) / (participants.length : ℚ)) * 100
    if vote_count < event.min_total_votes then some false
    else if participant_ratio < (event.min_participant_ratio : ℚ) then some false
    else some true

/-- `consensus.calculate_consensus(event, votes_by_users)`.
Returns `none` for the exception path (`max()` over an empty grouping),
`some []` for "no consensus", and `some consensus_votes_by_users`
on success. Mirrors the source line by line: the `min_total_votes`
guard, the grouping, Python `max` with first-max-wins, the
`min_consensus_votes` guard, and the float ratio guard
`consensus_ratio * 100 < event.min_consensus_ratio` (exact over `ℚ`). -/
def calculate_consensus (event : Event) (votes_by_users : VotesByUsers) :
    Option VotesByUsers :=
  let vote_count := votes_by_users.length
  if vote_count < event.min_total_votes then some []
  else
    let votes_by_repr := group_votes_by_representation votes_by_users
    match argmaxFirst votes_by_repr with
    | none => none
    | some (_, bucket) =>
        let consensus_user_ids := bucket.map Vote.user_id
        let consensus_votes_by_users :=
          votes_by_users.filter (fun p => consensus_user_ids.contains p.1)
        let consensus_votes_count := consensus_votes_by_users.length
        let consensus_ratio : ℚ :=
          (consensus_votes_count : ℚ) / (votes_by_users.length : ℚ)
        if consensus_votes_count < event.min_consensus_votes then some []
        else if consensus_ratio * 100 < (event.min_consensus_ratio : ℚ) then some []
        else some consensus_votes_by_users

/-- The representation selected by line 63 of `consensus.py`
(`vote_repr = max(votes_by_repr, key=lambda x: len(votes_by_repr[x]))`),
exposed for the tie-breaking analysis. -/
def winning_repr (votes_by_users : VotesByUsers) : Option String :=
  (argmaxFirst (group_votes_by_representation votes_by_users)).map Prod.fst

/-! ### `app/ethereum/rewards.py` -/

/-- One user's reward entry: `(user_id, eth, token)`. -/
abbrev RewardEntry := String × Nat × Nat

/-- `rewards.determine_rewards`: the source builds
`{vote.user_id: {'eth': 1, 'token': 2} for vote in consensus_votes}` —
every consensus voter gets the hard-coded amounts `eth = 1`, `token = 2`.
The balances `total_eth_balance` and `total_token_balance` are fetched
from the contract (passed here as parameters) but never used in the
computation (the per-user division is commented out in the source). -/
def determine_rewards (consensus_votes : List Vote)
    (total_eth_balance total_token_balance : Nat) : List RewardEntry :=
  let _ := total_eth_balance
  let _ := total_token_balance
  consensus_votes.map (fun v => (v.user_id, 1, 2))

/-- Total eth paid out by a reward list. -/
def eth_sum (rewards : List RewardEntry) : Nat :=
  (rewards.map (fun r => r.2.1)).sum

/-- Total tokens paid out by a reward list. -/
def token_sum (rewards : List RewardEntry) : Nat :=
  (rewards.map (fun r => r.2.2)).sum

/-! ### `app/common.py` — signature checking -/

/-- The JSON payload fields accessed by `common.is_vote_signed`:
`message['data']` (with its `user_id`) and `message['signedData']`.
A gossip message (`{'vote': ...}`, built by `Producer.create_message`)
has neither. -/
structure SignedPayload where
  user_id : String := ""
  body : String := ""
  deriving Repr, DecidableEq

/-- A decoded websocket message as accessed by `Consumer.consumer` and
`common.is_vote_signed`: an optional `vote` field (the gossip payload),
and the optional `data` / `signedData` fields the signature check reads. -/
structure Message where
  vote : Option Vote := none
  data : Option SignedPayload := none
  signedData : Option String := none
  deriving Repr

/-- `common.is_vote_signed(vote_json)`, parametrized by the signature
recovery oracle `recover` (`defunct_hash_message` + `recoverHash`).
Returns the PAIR `(vote_data['user_id'] == signer, signer)`; any
exception on the way (missing `data` or `signedData` key) is caught and
yields `(False, 'None')`. -/
def is_vote_signed (recover : SignedPayload → String → String)
    (m : Message) : Bool × String :=
  match m.data, m.signedData with
  | some d, some sig =>
      let signer := recover d sig
      (d.user_id == signer, signer)
  | _, _ => (false, "None")

/-- Python truthiness of a 2-tuple: a non-empty tuple is truthy
regardless of its contents, so `not is_vote_signed(message)` is always
`False` in `Consumer.consumer`. -/
def pyTruthyPair (p : Bool × String) : Bool :=
  let _ := p
  true

/-! ### System state

The per-event Store contents touched by the embedded operations:
the event descriptor, the participant set, the votes keyed by user
(spec §3: vote identity is `(event_id, user_id)`, later writes replace
earlier ones — modelled from the spec, the `database` package is not
among the provided sources), the `EventMetadata.is_consensus_reached`
flag and the persisted reward list. -/
structure SysState where
  ev : Event := {}
  participants : List String := []
  votes : VotesByUsers := []
  is_consensus_reached : Bool := false
  rewards : List RewardEntry := []
  deriving Repr

/-- Modelled from the spec: persist a vote, overwriting any prior vote
for the same user (spec §4.B `put_vote`; §3 "later writes replace
earlier ones for the same identity"). -/
def put_vote (votes : VotesByUsers) (v : Vote) : VotesByUsers :=
  alistPut votes v.user_id [v]

/-! ### `app/events/consensus.py` — `check_consensus` -/

/-- Outcome of one `check_consensus` run: the updated metadata flag and
reward store, and whether a `set_consensus_rewards` job was scheduled. -/
structure CheckOutcome where
  is_consensus_reached : Bool
  rewards : List RewardEntry
  rewards_written : Bool
  set_rewards_scheduled : Bool
  deriving Repr

/-- `consensus.check_consensus(event, event_metadata)`. Balances are the
contract's `getBalance()` result, passed as parameters. Returns `none`
on the exception paths (`ZeroDivisionError` in
`should_calculate_consensus`, `ValueError` from `max()`); otherwise the
resulting metadata flag, reward store and scheduling decision. The
source checks `event.metadata().is_consensus_reached` and returns
before writing the flag or computing rewards when it is already set. -/
def check_consensus (st : SysState) (eth_balance token_balance : Nat) :
    Option CheckOutcome :=
  let votes_by_users := st.votes
  let vote_count := votes_by_users.length
  match should_calculate_consensus st.ev st.participants vote_count with
  | none => none
  | some false =>
      some ⟨st.is_consensus_reached, st.rewards, false, false⟩
  | some true =>
      match calculate_consensus st.ev votes_by_users with
      | none => none
      | some consensus_votes_by_users =>
          if consensus_votes_by_users.isEmpty then
            some ⟨st.is_consensus_reached, st.rewards, false, false⟩
          else if st.is_consensus_reached then
            some ⟨st.is_consensus_reached, st.rewards, false, false⟩
          else
            let consensus_votes :=
              (consensus_votes_by_users.map Prod.snd).flatten
            let new_rewards :=
              determine_rewards consensus_votes eth_balance token_balance
            some ⟨true, new_rewards, true, st.ev.is_master_node⟩

/-! ### `app/events/events.py` — the HTTP vote pipeline

Note on the snapshot: `events.py` and `rewards.py` come from an older
revision than `consensus.py` (e.g. `events.py` still contains a mock
`check_consensus`), so the two pipelines are embedded separately, each
following its own module. -/

/-- HTTP status codes of `events.py`: `success_response = {'status': 200}`,
`user_error_response = {'status': 400}`. -/
def success_status : Nat := 200
def user_error_status : Nat := 400

/-- `events._is_vote_valid(timestamp, user_id, event)`: the voting-window
check followed by the participant-registration check
(`database_events.exists(event_address, user_id)` is a Store lookup;
the participant list is passed explicitly). Returns the
`(valid, response)` pair exactly as the source does. -/
def _is_vote_valid (timestamp : Nat) (user_id : String) (event : Event)
    (participants : List String) : Bool × Nat :=
  if timestamp < event.event_start_time || timestamp > event.event_end_time then
    (false, user_error_status)
  else if !(participants.contains user_id) then (false, user_error_status)
  else (true, success_status)

/-- `events.check_consensus(votes)` — the mock in `events.py`
(`if len(votes) > 5`). -/
def events_check_consensus (votes : VotesByUsers) : Bool × VotesByUsers :=
  if votes.length > 5 then (true, votes) else (false, votes)

/-- Outcome of `events.vote(data)`: the HTTP status, the post-state, and
whether the consensus-check branch (`len(event_votes) >
event.min_consensus_votes`) was entered. -/
structure VoteOutcome where
  status : Nat
  st : SysState
  consensus_checked : Bool
  valid_vote : Bool
  deriving Repr

/-- `events.vote(data)` for an existing event. The validity result of
`_is_vote_valid` is computed but its rejection is disabled in the source
("VOTE NOT VALID BUT CONTINUE ANYWAY", the `return response` is
commented out), so the vote is persisted unconditionally once the
`is_consensus_reached` guard passes. Afterwards the consensus-check
branch fires when `len(event_votes) > event.min_consensus_votes`; its
body runs the mock `check_consensus` and, on (mock) consensus, sets
`event.state = 1` and persists rewards (the source's call
`rewards.determine_rewards(event_id)` drops the vote argument, so the
rewards written are modelled through `determine_rewards` on the event's
votes with the balances the contract would report). -/
def vote (st : SysState) (user_id : String) (answers : List Answer)
    (current_timestamp : Nat) (eth_balance token_balance : Nat) : VoteOutcome :=
  let event := st.ev
  if st.is_consensus_reached then
    ⟨user_error_status, st, false, false⟩
  else
    let (valid_vote, _response) :=
      _is_vote_valid current_timestamp user_id event st.participants
    -- "VOTE NOT VALID BUT CONTINUE ANYWAY": no early return here.
    let new_vote : Vote :=
      { event_id := event.event_id, user_id := user_id,
        timestamp := current_timestamp, answers := answers }
    let votes1 := put_vote st.votes new_vote
    let st1 := { st with votes := votes1 }
    if votes1.length > event.min_consensus_votes then
      let (consensus_reached, consensus_votes) := events_check_consensus votes1
      if consensus_reached then
        let ev1 := { event with state := 1 }
        let event_rewards :=
          determine_rewards ((consensus_votes.map Prod.snd).flatten)
            eth_balance token_balance
        let st2 := { st1 with ev := ev1, rewards := event_rewards }
        ⟨success_status, st2, true, valid_vote⟩
      else ⟨success_status, st1, true, valid_vote⟩
    else ⟨success_status, st1, false, valid_vote⟩

/-! ### `app/websocket.py` — the gossip consumer -/

/-- Outcome of `Consumer.consumer(message_json)`: post-state, whether the
vote was persisted, and whether a consensus job was scheduled
(`scheduler.add_job(consensus.check_consensus, ...)`). `none` models an
uncaught exception in the handler. -/
structure ConsumeOutcome where
  st : SysState
  persisted : Bool
  job_scheduled : Bool
  deriving Repr

/-- `Consumer.should_calculate_consensus(event_id)` (`websocket.py`):
re-reads the event and vote count and schedules a `check_consensus` job
when `consensus.should_calculate_consensus` returns true. `none` is the
`ZeroDivisionError` path. -/
def consumer_should_calculate_consensus (st : SysState) : Option Bool :=
  should_calculate_consensus st.ev st.participants st.votes.length

/-- `Consumer.consumer(message_json)`, parametrized by the signature
recovery oracle. The source's signature guard is
`if not common.is_vote_signed(message)` — but `is_vote_signed` returns
the 2-tuple `(ok, signer)`, which is always truthy in Python, so the
guard never rejects (see `pyTruthyPair`). `event_exists` is the Store
lookup `database.VerityEvent.get(event_id) is not None`, modelled
against the single tracked event. -/
def consumer (recover : SignedPayload → String → String)
    (st : SysState) (m : Message) : Option ConsumeOutcome :=
  if m.vote.isNone then some ⟨st, false, false⟩
  else if !(pyTruthyPair (is_vote_signed recover m)) then some ⟨st, false, false⟩
  else
    match m.vote with
    | none => some ⟨st, false, false⟩
    | some v =>
        if !(st.ev.event_id == v.event_id) then some ⟨st, false, false⟩
        else
          let st1 := { st with votes := put_vote st.votes v }
          match consumer_should_calculate_consensus st1 with
          | none => none
          | some sched => some ⟨st1, true, sched⟩

/-! ### `app/events/filters.py` — log-entry handlers -/

/-- Python list indexing `l[i]` with a possibly negative index:
a negative index counts from the end once; out of range raises
(`none`). -/
def pyIdx {α : Type} (l : List α) (i : Int) : Option α :=
  let n : Int := l.length
  let j := if i < 0 then i + n else i
  if j < 0 then none else if j ≥ n then none else l.get? j.toNat

/-- `filters.process_state_transition(event_id, entries)`:
`event.state = entries[0]['args']['newState']; event.update()` —
an unconditional assignment of the first entry's `newState`, with no
comparison against the stored state. `none` models the `IndexError` on
an empty batch (the callers skip empty batches). -/
def process_state_transition (state : Nat) (entries : List Nat) : Option Nat :=
  let _ := state
  match entries with
  | [] => none
  | newState :: _ => some newState

/-- Result of `process_validation_round_restart`: the updated event and
whether `rewards.set_consensus_rewards` was invoked. -/
structure RestartOutcome where
  ev : Event
  set_rewards_run : Bool
  deriving Repr

/-- `filters.process_validation_round_restart(w3, event_id, entries)`:
reads `validation_round = entries[0]['args']['validationRound']`, sets
`is_master_node = (own_address == node_addresses[validation_round - 1])`
("validation round starts from 1, instead of 0"), updates the round and
master flag, and runs `rewards.set_consensus_rewards` exactly when the
node is master. `own_address` stands for `w3.eth.defaultAccount`.
`none` models `IndexError` (empty batch, or round index out of range). -/
def process_validation_round_restart (own_address : String) (ev : Event)
    (entries : List Nat) : Option RestartOutcome :=
  match entries with
  | [] => none
  | validation_round :: _ =>
      match pyIdx ev.node_addresses ((validation_round : Int) - 1) with
      | none => none
      | some addr =>
          let is_master_node := own_address == addr
          let ev1 := { ev with rewards_validation_round := validation_round,
                               is_master_node := is_master_node }
          some ⟨ev1, is_master_node⟩

/-- `filters.process_validation_start(event_id, entries)`: sets the
round from the first entry and, when the node is not master, runs
`rewards.validate_rewards`. Returns the updated event and whether
`validate_rewards` was invoked; `none` models the empty-batch
`IndexError`. -/
def process_validation_start (ev : Event) (entries : List Nat) :
    Option (Event × Bool) :=
  match entries with
  | [] => none
  | validation_round :: _ =>
      let ev1 := { ev with rewards_validation_round := validation_round }
      some (ev1, !ev.is_master_node)

/-- `filters.process_join_events(event_id, entries)`: union the wallets
of the entries into `Participants[event_id]` (spec §4.B
`put_participants` unions into the existing set; the Store side is
modelled from the spec). -/
def process_join_events (participants : List String) (wallets : List String) :
    List String :=
  participants ++ wallets.filter (fun w => !(participants.contains w))

/-! ### The operations of the system, as one step function (for the
metadata-monotonicity invariant). -/

/-- The embedded operations that touch the per-event Store. -/
inductive Op where
  | httpVote (user_id : String) (answers : List Answer) (now : Nat)
      (eth_balance token_balance : Nat)
  | gossip (recover : SignedPayload → String → String) (m : Message)
  | consensusJob (eth_balance token_balance : Nat)
  | stateTransition (entries : List Nat)
  | validationStart (entries : List Nat)
  | validationRestart (own_address : String) (entries : List Nat)
  | joinEvents (wallets : List String)

/-- Apply one operation to the per-event Store state. An operation that
raises (its embedding returns `none`) leaves the state it had already
committed; `check_consensus` commits its metadata flag and rewards as
computed by `check_consensus`. -/
def step (op : Op) (s : SysState) : SysState :=
  match op with
  | .httpVote user_id answers now eth tok =>
      (vote s user_id answers now eth tok).st
  | .gossip recover m =>
      match consumer recover s m with
      | none => { s with votes := put_vote s.votes (m.vote.getD {}) }
      | some o => o.st
  | .consensusJob eth tok =>
      match check_consensus s eth tok with
      | none => s
      | some o => { s with is_consensus_reached := o.is_consensus_reached,
                           rewards := o.rewards }
  | .stateTransition entries =>
      match process_state_transition s.ev.state entries with
      | none => s
      | some newState => { s with ev := { s.ev with state := newState } }
  | .validationStart entries =>
      match process_validation_start s.ev entries with
      | none => s
      | some (ev1, _) => { s with ev := ev1 }
  | .validationRestart own entries =>
      match process_validation_round_restart own s.ev entries with
      | none => s
      | some o => { s with ev := o.ev }
  | .joinEvents wallets =>
      { s with participants := process_join_events s.participants wallets }

/-! ### Concrete fixtures used by the counterexamples and witnesses -/

/-- Signature-recovery oracle that never recovers the voter: models a
message whose signature does not recover to the claimed user. -/
def badRecover : SignedPayload → String → String := fun _ _ => "0xATTACKER"

/-- A gossip message whose signature recovers to `0xATTACKER`, not to
the claimed user `0xUSER`. -/
def c1_message : Message :=
  { vote := some { event_id := "0xE", user_id := "0xUSER" },
    data := some { user_id := "0xUSER" }, signedData := some "0xSIG" }

/-- Node state for the gossip counterexample: the event exists, the
voter is its only participant, no votes yet. -/
def c1_state : SysState :=
  { ev := { event_id := "0xE", min_total_votes := 1 },
    participants := ["0xUSER"] }

/-- Event whose voting window is the interval 10..20. -/
def c2_event : Event :=
  { event_id := "0xE", event_start_time := 10, event_end_time := 20,
    min_total_votes := 5, min_consensus_votes := 5 }

/-- State for the HTTP-ingress counterexample: registered user, empty
vote store, consensus not reached. -/
def c2_state : SysState :=
  { ev := c2_event, participants := ["0xU"] }

/-- Event rules used by the consensus-threshold witness. -/
def c4_event : Event :=
  { min_total_votes := 2, min_consensus_votes := 2, min_consensus_ratio := 50 }

/-- Two agreeing votes. -/
def c4_v1 : Vote := { user_id := "u1", answers := [("k", "x")] }
def c4_v2 : Vote := { user_id := "u2", answers := [("k", "x")] }
def c4_votes : VotesByUsers := [("u1", [c4_v1]), ("u2", [c4_v2])]

/-- Event rules for the tie-breaking counterexample: two votes, groups
of size one each, both thresholds met by a single-vote group. -/
def c5_event : Event :=
  { min_total_votes := 2, min_consensus_votes := 1, min_consensus_ratio := 50 }

/-- Vote for answer `b`, arriving first. -/
def c5_vb : Vote := { user_id := "u1", answers := [("k", "b")] }

/-- Vote for answer `a`, arriving second; its representation is
lexicographically smaller. -/
def c5_va : Vote := { user_id := "u2", answers := [("k", "a")] }

def c5_votes : VotesByUsers := [("u1", [c5_vb]), ("u2", [c5_va])]

/-- State for the scheduling-threshold counterexample:
`min_total_votes = 3`, `min_consensus_votes = 1`, one vote already
stored. -/
def c6_state : SysState :=
  { ev := { event_id := "0xE", event_start_time := 0, event_end_time := 1000,
            min_total_votes := 3, min_consensus_votes := 1 },
    participants := ["0xA", "0xB"],
    votes := [("0xA", [{ event_id := "0xE", user_id := "0xA",
                         answers := [("k", "x")] }])] }

/-- State with the consensus flag already set, one vote, one
participant: `check_consensus` reaches its already-set guard. -/
def c7_state : SysState :=
  { ev := { event_id := "0xE", min_total_votes := 1 },
    participants := ["0xU"],
    votes := [("0xU", [{ event_id := "0xE", user_id := "0xU",
                         answers := [("k", "x")] }])],
    is_consensus_reached := true }

/-- Event with two resolver nodes, for the master-election witness. -/
def c8_event : Event :=
  { event_id := "0xE", node_addresses := ["0xA", "0xB"] }

/-! # Theorems -/

/-- C1: the spec claims that a gossip vote whose signature does not
recover to the user is neither persisted nor triggers a consensus job.
The code violates this: `is_vote_signed` returns the tuple
`(ok, signer)` and `Consumer.consumer` tests `if not
common.is_vote_signed(message)` — a non-empty tuple is always truthy in
Python, so the rejection branch is dead. At the failing input below the
signature check yields `false`, yet the vote is persisted and a
consensus job is scheduled. -/
theorem consumer_accepts_vote_with_invalid_signature :
    (is_vote_signed badRecover c1_message).1 = false ∧
    c1_state.votes.length = 0 ∧
    (consumer badRecover c1_state c1_message).map
        (fun o => (o.persisted, o.job_scheduled, o.st.votes.length)) =
      some (true, true, 1) := by
  refine ⟨by decide, rfl, ?_⟩
  simp [consumer, c1_state, c1_message, badRecover, pyTruthyPair,
    is_vote_signed, put_vote, alistPut, consumer_should_calculate_consensus,
    should_calculate_consensus]
  norm_num

/-- C2: the spec claims a vote with a timestamp outside
`event_start..event_end` (or an unregistered user) is rejected with
`user_error` and the Store is unchanged. In `events.vote` the validity
result of `_is_vote_valid` is computed but the rejection is disabled
("VOTE NOT VALID BUT CONTINUE ANYWAY"; the `return response` line is
commented out): at timestamp 100, outside the window 10..20, the vote is
persisted anyway and the call returns the success status 200. -/
theorem vote_persists_despite_invalid_timestamp :
    (_is_vote_valid 100 ("0xU") c2_event ["0xU"]).1 = false ∧
    (_is_vote_valid 100 ("0xU") c2_event ["0xU"]).2 = user_error_status ∧
    c2_state.votes.length = 0 ∧
    (vote c2_state ("0xU") [("k", "x")] 100 0 0).status = success_status ∧
    (vote c2_state ("0xU") [("k", "x")] 100 0 0).st.votes =
      [("0xU", [{ event_id := "0xE", user_id := "0xU", timestamp := 100,
                  answers := [("k", "x")] }])] := by
  refine ⟨by decide, by decide, rfl, ?_, ?_⟩ <;>
    simp [vote, c2_state, c2_event, _is_vote_valid, user_error_status,
      success_status, put_vote, alistPut, events_check_consensus]

/-- C3: the spec claims `determine_rewards` distributes at most the
available balances. The code hard-codes eth 1 and token 2 for every
consensus voter and ignores the balances entirely: with one consensus
voter and both balances 0, the paid sums are 1 and 2, exceeding the
balances. -/
theorem determine_rewards_exceeds_balances :
    eth_sum (determine_rewards [{ user_id := "0xU" }] 0 0) = 1 ∧
    token_sum (determine_rewards [{ user_id := "0xU" }] 0 0) = 2 ∧
    ¬ eth_sum (determine_rewards [{ user_id := "0xU" }] 0 0) ≤ 0 ∧
    ¬ token_sum (determine_rewards [{ user_id := "0xU" }] 0 0) ≤ 0 := by
  refine ⟨rfl, rfl, by decide, by decide⟩

/-- C9 counterexample: the spec claims a `StateTransition` entry whose
`newState` is below the stored state is a logged no-op. The handler
assigns unconditionally: from stored state 3, an entry with
`newState = 1` overwrites the state with 1 — the state decreases. -/
theorem state_transition_applies_backward_transition :
    process_state_transition 3 [1] = some 1 ∧
    (step (Op.stateTransition [1]) { ev := { state := 3 } }).ev.state = 1 ∧
    (1 : Nat) < 3 := by
  refine ⟨rfl, rfl, by decide⟩

/-- C9 amended: `process_state_transition` unconditionally writes the
`newState` of the first entry of the batch, whatever the stored state is
— backward and same-state transitions are applied as writes, not
rejected. -/
theorem state_transition_writes_first_entry :
    ∀ (state newState : Nat) (rest : List Nat),
      process_state_transition state (newState :: rest) = some newState := by
  intro state newState rest
  rfl

/-- C10: `should_calculate_consensus` computes
`(vote_count / len(event.participants())) * 100` before any guard, so
with zero participants it raises `ZeroDivisionError` (modelled `none`)
for every vote count — even one below `min_total_votes` — and it is
total (returns a Boolean) exactly when the participant list is
non-empty. -/
theorem should_calculate_consensus_total_iff_participants :
    ∀ (e : Event) (participants : List String) (vote_count : Nat),
      (participants = [] →
        should_calculate_consensus e participants vote_count = none) ∧
      (participants ≠ [] →
        (should_calculate_consensus e participants vote_count).isSome = true) := by
  intro e participants vote_count
  constructor
  · intro h
    subst h
    rfl
  · intro h
    have hlen : participants.length ≠ 0 := by
      simpa [List.length_eq_zero] using h
    simp only [should_calculate_consensus, hlen, if_false]
    split
    · simp
    · split <;> simp

/-- C10 witness: with zero participants the predicate raises even
though `vote_count = 1` is below `min_total_votes = 5`; with one
participant it returns a Boolean. -/
theorem should_calculate_consensus_total_iff_participants_witness :
    should_calculate_consensus { min_total_votes := 5 } [] 1 = none ∧
    (should_calculate_consensus { min_total_votes := 5 } ["0xU"] 1).isSome = true :=
  ⟨(should_calculate_consensus_total_iff_participants
      { min_total_votes := 5 } [] 1).1 rfl,
   (should_calculate_consensus_total_iff_participants
      { min_total_votes := 5 } ["0xU"] 1).2 (by simp)⟩

/-- C4: whenever `calculate_consensus` returns a non-empty consensus
set S, the two guards of the source guarantee
`|S| ≥ min_consensus_votes` and `100·|S| ≥ min_consensus_ratio ·
vote_count` (the ratio guard `consensus_ratio * 100 <
min_consensus_ratio` is over exact rational division). -/
theorem calculate_consensus_meets_thresholds :
    ∀ (e : Event) (votes_by_users : VotesByUsers) (S : VotesByUsers),
      calculate_consensus e votes_by_users = some S → S ≠ [] →
      e.min_consensus_votes ≤ S.length ∧
      e.min_consensus_ratio * votes_by_users.length ≤ 100 * S.length := by
  intro e votes_by_users S h hne
  simp only [calculate_consensus] at h
  split at h
  · exact absurd (Option.some_injective _ h).symm hne
  · split at h
    · exact Option.noConfusion h
    · rename_i heq
      split at h
      · exact absurd (Option.some_injective _ h).symm hne
      · split at h
        · exact absurd (Option.some_injective _ h).symm hne
        · rename_i hcnt hratio
          rw [Option.some_inj] at h
          constructor
          · exact h ▸ Nat.le_of_not_lt hcnt
          · have hle : S.length ≤ votes_by_users.length := by
              rw [← h]
              exact List.length_filter_le _ _
            have hSpos : 0 < S.length := List.length_pos.mpr hne
            have htpos : 0 < votes_by_users.length :=
              lt_of_lt_of_le hSpos hle
            have htq : (0 : ℚ) < (votes_by_users.length : ℚ) := by
              exact_mod_cast htpos
            have hr : (e.min_consensus_ratio : ℚ) ≤
                (S.length : ℚ) / (votes_by_users.length : ℚ) * 100 := by
              rw [← h]
              exact not_lt.mp hratio
            rw [div_mul_eq_mul_div, le_div_iff₀ htq] at hr
            have hcast : ((e.min_consensus_ratio * votes_by_users.length : ℕ) : ℚ) ≤
                ((100 * S.length : ℕ) : ℚ) := by
              push_cast
              linarith
            exact_mod_cast hcast

/-- C4 witness: two agreeing votes under rules
`min_total_votes = min_consensus_votes = 2`, `min_consensus_ratio = 50`
reach consensus and satisfy both thresholds. -/
theorem calculate_consensus_meets_thresholds_witness :
    c4_event.min_consensus_votes ≤ (c4_votes).length ∧
    c4_event.min_consensus_ratio * c4_votes.length ≤ 100 * (c4_votes).length :=
  calculate_consensus_meets_thresholds c4_event c4_votes c4_votes
    (by
      simp [calculate_consensus, c4_event, c4_votes, c4_v1, c4_v2,
        group_votes_by_representation, representation_of, sortAnswers,
        insertAnswer, insertGrouped, argmaxFirst]
      norm_num)
    (by decide)

/-- `argmaxFirst` never fails on a non-empty list (Python `max` raises
only on an empty iterable). -/
theorem argmaxFirst_ne_none (a : String × List Vote) (rest : VotesByRepr) :
    argmaxFirst (a :: rest) ≠ none := by
  simp only [argmaxFirst]
  cases argmaxFirst rest with
  | none => simp
  | some y =>
      show (if y.2.length > a.2.length then some y else some a) ≠ none
      split <;> simp

/-- Helper for the tie-breaking analysis: Python `max` returns the
first element attaining the maximal key, so `argmaxFirst` splits its
input into a strictly smaller prefix, the returned element, and a
no-larger suffix. -/
theorem argmaxFirst_first_max :
    ∀ (l : VotesByRepr) (x : String × List Vote),
      argmaxFirst l = some x →
      ∃ l1 l2, l = l1 ++ x :: l2 ∧
        (∀ p ∈ l1, p.2.length < x.2.length) ∧
        (∀ p ∈ l2, p.2.length ≤ x.2.length) := by
  intro l
  induction l with
  | nil => intro x h; exact Option.noConfusion h
  | cons a rest ih =>
      intro x h
      cases hr : argmaxFirst rest with
      | none =>
          simp only [argmaxFirst, hr] at h
          have hx : a = x := Option.some_injective _ h
          subst hx
          have hrest : rest = [] := by
            cases rest with
            | nil => rfl
            | cons b bs => exact absurd hr (argmaxFirst_ne_none b bs)
          subst hrest
          exact ⟨[], [], rfl, by simp, by simp⟩
      | some y =>
          simp only [argmaxFirst, hr] at h
          obtain ⟨l1, l2, heq, h1, h2⟩ := ih y hr
          by_cases hgt : y.2.length > a.2.length
          · rw [if_pos hgt] at h
            have hx : y = x := Option.some_injective _ h
            subst hx
            refine ⟨a :: l1, l2, by rw [heq, List.cons_append], ?_, h2⟩
            intro p hp
            rcases List.mem_cons.mp hp with hpa | hpl
            · subst hpa; exact hgt
            · exact h1 p hpl
          · rw [if_neg hgt] at h
            have hx : a = x := Option.some_injective _ h
            subst hx
            refine ⟨[], rest, rfl, by simp, ?_⟩
            have hy_le : y.2.length ≤ a.2.length := Nat.le_of_not_lt hgt
            intro p hp
            rw [heq] at hp
            rcases List.mem_append.mp hp with hpl | hpr
            · exact le_trans (le_of_lt (h1 p hpl)) hy_le
            · rcases List.mem_cons.mp hpr with hpy | hpl2
              · subst hpy; exact hy_le
              · exact le_trans (h2 p hpl2) hy_le

/-- C5 counterexample: the spec claims ties between equally large
groups are broken by lexicographic order of the representation. With
two single-vote groups, the group of representation `k:b;` formed first
and the lexicographically smaller `k:a;` second, the source
(`max(votes_by_repr, key=...)`) selects `k:b;` — not the
lexicographically smallest — and the consensus set is the `k:b;` voter. -/
theorem winning_repr_not_lexicographically_smallest :
    group_votes_by_representation c5_votes =
      [("k:b;", [c5_vb]), ("k:a;", [c5_va])] ∧
    winning_repr c5_votes = some ("k:b;") ∧
    ("k:a;" : String) < "k:b;" ∧
    calculate_consensus c5_event c5_votes = some [("u1", [c5_vb])] := by
  refine ⟨?_, ?_, by rw [String.lt_iff_toList_lt]; decide, ?_⟩
  · simp [group_votes_by_representation, c5_votes, c5_va, c5_vb,
      representation_of, sortAnswers, insertAnswer, insertGrouped]
  · simp [winning_repr, group_votes_by_representation, c5_votes, c5_va, c5_vb,
      representation_of, sortAnswers, insertAnswer, insertGrouped, argmaxFirst]
  · simp [calculate_consensus, c5_event, c5_votes, c5_va, c5_vb,
      group_votes_by_representation, representation_of, sortAnswers,
      insertAnswer, insertGrouped, argmaxFirst]
    norm_num

/-- C5 amended: `calculate_consensus` selects a representation whose
group is largest; when several groups are equally large it selects the
representation whose group was formed FIRST (first occurrence in the
vote iteration order), not the lexicographically smallest, so the
selection depends on vote arrival order. -/
theorem winning_repr_is_first_largest :
    ∀ (votes_by_users : VotesByUsers) (r : String),
      winning_repr votes_by_users = some r →
      ∃ l1 bucket l2,
        group_votes_by_representation votes_by_users =
          l1 ++ (r, bucket) :: l2 ∧
        (∀ p ∈ l1, p.2.length < bucket.length) ∧
        (∀ p ∈ l2, p.2.length ≤ bucket.length) := by
  intro votes_by_users r h
  simp only [winning_repr, Option.map_eq_some'] at h
  obtain ⟨x, hx, hfst⟩ := h
  obtain ⟨l1, l2, heq, h1, h2⟩ := argmaxFirst_first_max _ x hx
  exact ⟨l1, x.2, l2, by rw [heq, ← hfst], h1, h2⟩

/-- C5 amended witness: at the concrete tie the selected representation
`k:b;` heads the grouping with an empty strictly-smaller prefix and a
one-group no-larger suffix. -/
theorem winning_repr_is_first_largest_witness :
    ∃ l1 bucket l2,
      group_votes_by_representation c5_votes = l1 ++ ("k:b;", bucket) :: l2 ∧
      (∀ p ∈ l1, p.2.length < bucket.length) ∧
      (∀ p ∈ l2, p.2.length ≤ bucket.length) :=
  winning_repr_is_first_largest c5_votes ("k:b;")
    (by
      simp [winning_repr, group_votes_by_representation, c5_votes, c5_va,
        c5_vb, representation_of, sortAnswers, insertAnswer, insertGrouped,
        argmaxFirst])

/-- C6 counterexample: the spec claims a consensus check follows a
persisted HTTP vote exactly when the post-write count reaches
`min_total_votes`. With `min_total_votes = 3`, `min_consensus_votes = 1`
and a post-write count of 2, the count is below `min_total_votes`, yet
the source (`if len(event_votes) > event.min_consensus_votes`) enters
the consensus-check branch. -/
theorem vote_consensus_check_below_min_total_votes :
    (vote c6_state ("0xB") [("k", "x")] 5 0 0).consensus_checked = true ∧
    (vote c6_state ("0xB") [("k", "x")] 5 0 0).st.votes.length = 2 ∧
    (vote c6_state ("0xB") [("k", "x")] 5 0 0).st.votes.length <
      c6_state.ev.min_total_votes := by
  refine ⟨?_, ?_, ?_⟩ <;>
    simp [vote, c6_state, _is_vote_valid, put_vote, alistPut,
      events_check_consensus, success_status, user_error_status]

/-- C6 amended: in the HTTP pipeline, after a vote is persisted the
consensus-check branch is entered exactly when the post-write vote
count strictly exceeds `min_consensus_votes` — the `min_consensus_votes`
field, not `min_total_votes`, governs the check. -/
theorem vote_consensus_check_iff_min_consensus_votes :
    ∀ (st : SysState) (user_id : String) (answers : List Answer)
      (now eth tok : Nat),
      st.is_consensus_reached = false →
      ((vote st user_id answers now eth tok).consensus_checked = true ↔
        (vote st user_id answers now eth tok).st.votes.length >
          st.ev.min_consensus_votes) := by
  intro st user_id answers now eth tok h
  simp only [vote, h, Bool.false_eq_true, if_false]
  split
  · rename_i hc
    simp only [events_check_consensus]
    split
    · rename_i hmock
      simpa using hc
    · simpa using hc
  · rename_i hc
    simpa using hc

/-- C6 amended witness: at the concrete state the branch is entered and
the post-write count 2 indeed exceeds `min_consensus_votes = 1`. -/
theorem vote_consensus_check_iff_min_consensus_votes_witness :
    (vote c6_state ("0xB") [("k", "x")] 5 0 0).consensus_checked = true ↔
      (vote c6_state ("0xB") [("k", "x")] 5 0 0).st.votes.length >
        c6_state.ev.min_consensus_votes :=
  vote_consensus_check_iff_min_consensus_votes c6_state ("0xB") [("k", "x")]
    5 0 0 rfl

/-- `check_consensus` on an event whose metadata flag is already set
returns before writing the flag or computing rewards:
the outcome keeps the flag, keeps the reward store, writes nothing and
schedules nothing. -/
theorem check_consensus_preserves_when_reached :
    ∀ (s : SysState) (eth tok : Nat) (o : CheckOutcome),
      s.is_consensus_reached = true → check_consensus s eth tok = some o →
      o.is_consensus_reached = true ∧ o.rewards = s.rewards ∧
      o.rewards_written = false ∧ o.set_rewards_scheduled = false := by
  intro s eth tok o h hc
  simp only [check_consensus] at hc
  split at hc
  · exact Option.noConfusion hc
  · cases hc
    exact ⟨h, rfl, rfl, rfl⟩
  · split at hc
    · exact Option.noConfusion hc
    · split at hc
      · cases hc
        exact ⟨h, rfl, rfl, rfl⟩
      · cases hc
        exact ⟨h, rfl, rfl, rfl⟩

/-- The gossip consumer never touches the metadata flag: on success the
post-state flag equals the pre-state flag. -/
theorem consumer_preserves_flag :
    ∀ (recover : SignedPayload → String → String) (s : SysState)
      (m : Message) (o : ConsumeOutcome),
      consumer recover s m = some o →
      o.st.is_consensus_reached = s.is_consensus_reached := by
  intro recover s m o h
  simp only [consumer] at h
  split at h
  · cases h; rfl
  · split at h
    · cases h; rfl
    · split at h
      · cases h; rfl
      · split at h
        · cases h; rfl
        · split at h
          · exact Option.noConfusion h
          · cases h; rfl

/-- C7: `EventMetadata.is_consensus_reached` is monotone under every
embedded operation (HTTP vote, gossip consumption, consensus job, all
filter handlers): once true it stays true; and `check_consensus` writes
the flag and computes rewards only when the flag is not already set —
if it is set, the outcome changes neither the flag nor the reward
store and schedules nothing. -/
theorem is_consensus_reached_monotone :
    ∀ (op : Op) (s : SysState), s.is_consensus_reached = true →
      (step op s).is_consensus_reached = true ∧
      (∀ eth tok o, check_consensus s eth tok = some o →
        o.is_consensus_reached = true ∧ o.rewards = s.rewards ∧
        o.rewards_written = false ∧ o.set_rewards_scheduled = false) := by
  intro op s h
  refine ⟨?_, fun eth tok o hc =>
    check_consensus_preserves_when_reached s eth tok o h hc⟩
  cases op with
  | httpVote uid ans now eth tok => simp [step, vote, h]
  | gossip recover m =>
      simp only [step]
      cases hcm : consumer recover s m with
      | none => simpa using h
      | some o => simpa [consumer_preserves_flag recover s m o hcm] using h
  | consensusJob eth tok =>
      simp only [step]
      cases hcc : check_consensus s eth tok with
      | none => exact h
      | some o =>
          simpa using (check_consensus_preserves_when_reached s eth tok o h hcc).1
  | stateTransition entries =>
      simp only [step]
      cases process_state_transition s.ev.state entries <;> simpa using h
  | validationStart entries =>
      simp only [step]
      cases hps : process_validation_start s.ev entries with
      | none => exact h
      | some p => cases p; simpa using h
  | validationRestart own entries =>
      simp only [step]
      cases process_validation_round_restart own s.ev entries <;> simpa using h
  | joinEvents wallets => simpa using h

/-- C7 witness: a consensus job run on a state whose flag is already
set leaves the flag set. -/
theorem is_consensus_reached_monotone_witness :
    (step (Op.consensusJob 5 7) c7_state).is_consensus_reached = true :=
  (is_consensus_reached_monotone (Op.consensusJob 5 7) c7_state rfl).1

/-- C8: on a `ValidationRestart` entry carrying round `k` with
`1 ≤ k ≤ len(node_addresses)`, the handler sets
`rewards_validation_round` to `k`, sets `is_master_node` exactly when
the own address equals `node_addresses[k-1]` (1-indexed), runs
`set_consensus_rewards` exactly when the node thereby became master,
and exactly one address among `node_addresses` satisfies the master
predicate for that round. -/
theorem validation_restart_master_election :
    ∀ (own_address : String) (ev : Event) (validation_round : Nat)
      (rest : List Nat),
      1 ≤ validation_round →
      validation_round ≤ ev.node_addresses.length →
      ∃ target,
        pyIdx ev.node_addresses ((validation_round : Int) - 1) = some target ∧
        process_validation_round_restart own_address ev
            (validation_round :: rest) =
          some ⟨{ ev with rewards_validation_round := validation_round,
                          is_master_node := own_address == target },
                own_address == target⟩ ∧
        (ev.node_addresses.toFinset.filter (fun a => a = target)).card = 1 := by
  intro own ev k rest h1 h2
  have hlt : k - 1 < ev.node_addresses.length := by omega
  refine ⟨ev.node_addresses.get ⟨k - 1, hlt⟩, ?_, ?_, ?_⟩
  case _ =>
    have hk0 : ¬ ((k : Int) - 1 < 0) := by omega
    have hkn : ¬ ((k : Int) - 1 ≥ (ev.node_addresses.length : Int)) := by omega
    have htn : ((k : Int) - 1).toNat = k - 1 := by omega
    simp only [pyIdx, if_neg hk0, if_neg hkn, htn]
    exact List.get?_eq_get hlt
  case _ =>
    have hk0 : ¬ ((k : Int) - 1 < 0) := by omega
    have hkn : ¬ ((k : Int) - 1 ≥ (ev.node_addresses.length : Int)) := by omega
    have htn : ((k : Int) - 1).toNat = k - 1 := by omega
    simp only [process_validation_round_restart, pyIdx, if_neg hk0,
      if_neg hkn, htn, List.get?_eq_get hlt]
  case _ =>
    have hmem : ev.node_addresses.get ⟨k - 1, hlt⟩ ∈ ev.node_addresses :=
      List.get_mem _ _ _
    rw [Finset.card_eq_one]
    refine ⟨ev.node_addresses.get ⟨k - 1, hlt⟩, ?_⟩
    ext a
    simp only [Finset.mem_filter, List.mem_toFinset, Finset.mem_singleton]
    constructor
    · exact fun hp => hp.2
    · intro ha
      subst ha
      exact ⟨hmem, rfl⟩

/-- C8 witness: with resolvers `0xA, 0xB` and round 2, the node with
address `0xB` is elected master and `set_consensus_rewards` runs. -/
theorem validation_restart_master_election_witness :
    ∃ target,
      pyIdx c8_event.node_addresses (((2 : Nat) : Int) - 1) = some target ∧
      process_validation_round_restart ("0xB") c8_event (2 :: []) =
        some ⟨{ c8_event with rewards_validation_round := 2,
                              is_master_node := ("0xB" : String) == target },
              ("0xB" : String) == target⟩ ∧
      (c8_event.node_addresses.toFinset.filter (fun a => a = target)).card = 1 :=
  validation_restart_master_election ("0xB") c8_event 2 [] (by decide)
    (by simp [c8_event])

end ValidationNode
